import Mathlib

/-!
Verification of the asynchronous task-orchestration core of the
Eazy File Converter backend (src/backend/main.py).

The embedding models:
- the in-memory task registry `tasks = {}` as an association list from
  task identifier strings to `TaskRecord` values (a Python dict keyed by
  fresh UUID strings, so insertion appends and field assignment updates
  in place);
- the background executor `conversion_task` as the list of primitive
  registry writes it performs, one per Python statement, so that every
  state between two statements is observable by a concurrent reader
  (FastAPI runs sync background tasks on a thread pool while the event
  loop keeps serving status requests);
- the converter collaborator `converter.process_conversion` as an
  abstract function returning either the output file name
  (`str(output_path.name)`) or the exception description `str(e)`;
- the handlers `upload_file`, `get_status` and `download_file` as pure
  functions from the registry (plus the staging directory and the
  download directory contents) to their HTTP-level results, with raised
  `HTTPException`s as the error side of `Except`.
-/

namespace EazyConv

/-- A record of the `tasks` dictionary. `upload_file` creates it with the
three keys `status`, `input_file`, `target_format`; `conversion_task` later
adds `output_file` or `error`, modelled as `Option` fields that start out
`none` (absent key). -/
structure TaskRecord where
  status : String
  input_file : String
  target_format : String
  output_file : Option String := none
  error : Option String := none
deriving DecidableEq

/-- Association-list lookup, the model of `d[k]` / `k in d` on a Python
dict with string keys. -/
def lookupAssoc {β : Type} : List (String × β) → String → Option β
  | [], _ => none
  | (k, v) :: rest, key => if k = key then some v else lookupAssoc rest key

/-- Association-list insertion, the model of `d[k] = v`: replaces the value
if the key is present, otherwise appends (Python dicts keep insertion
order). -/
def insertAssoc {β : Type} : List (String × β) → String → β → List (String × β)
  | [], key, v => [(key, v)]
  | (k, w) :: rest, key, v =>
      if k = key then (key, v) :: rest else (k, w) :: insertAssoc rest key v

/-- The in-memory task status storage `tasks = {}`. -/
abbrev Registry := List (String × TaskRecord)

/-- Update the record stored under `id` in place, the model of mutating the
inner dict `tasks[task_id]`; a no-op when the key is absent (the executor is
only ever scheduled for an id that `upload_file` just inserted, and entries
are never deleted, so the key is always present at call time). -/
def updateTask : Registry → String → (TaskRecord → TaskRecord) → Registry
  | [], _, _ => []
  | (k, r) :: rest, id, f =>
      if k = id then (k, f r) :: updateTask rest id f
      else (k, r) :: updateTask rest id f

/-- Model of `tasks[task_id]["status"] = s`. -/
def setStatus (s : String) (r : TaskRecord) : TaskRecord := { r with status := s }

/-- Model of `tasks[task_id]["output_file"] = f`. -/
def setOutput (f : String) (r : TaskRecord) : TaskRecord := { r with output_file := some f }

/-- Model of `tasks[task_id]["error"] = e`. -/
def setError (e : String) (r : TaskRecord) : TaskRecord := { r with error := some e }

/-- The primitive registry writes performed by `conversion_task`, one per
Python statement, given the converter outcome: on success
(`.ok outName`, with `outName` standing for `str(output_path.name)`) the
statements of the `try` block, on an exception (`.error e`, with `e`
standing for `str(e)`) the `status = "processing"` statement followed by
the two statements of the `except` block. -/
def conversionSteps (id : String) (conv : Except String String) :
    List (Registry → Registry) :=
  match conv with
  | .ok outName =>
      [fun t => updateTask t id (setStatus "processing"),
       fun t => updateTask t id (setStatus "completed"),
       fun t => updateTask t id (setOutput outName)]
  | .error e =>
      [fun t => updateTask t id (setStatus "processing"),
       fun t => updateTask t id (setStatus "failed"),
       fun t => updateTask t id (setError e)]

/-- Run a list of registry writes in order. -/
def runSteps (tasks : Registry) : List (Registry → Registry) → Registry
  | [] => tasks
  | f :: fs => runSteps (f tasks) fs

/-- The registry state observable by a concurrent reader after the first
`n` statements of `conversion_task` have executed. -/
def stateAfter (tasks : Registry) (id : String) (conv : Except String String)
    (n : Nat) : Registry :=
  runSteps tasks ((conversionSteps id conv).take n)

/-- The background executor `conversion_task(task_id, input_filename,
target_format)` run to the end: every exception of the converter is caught
by the `except Exception` block and turned into registry writes, so the
function is total and returns the final registry instead of raising. -/
def conversion_task (converter : String → String → Except String String)
    (tasks : Registry) (task_id input_filename target_format : String) : Registry :=
  runSteps tasks (conversionSteps task_id (converter input_filename target_format))

/-- A raised `fastapi.HTTPException(status_code, detail)`. -/
structure HTTPException where
  status_code : Nat
  detail : String
deriving DecidableEq

/-- JSON object returned by a handler, as an ordered list of string
key-value pairs (all values in these responses are strings). -/
abbrev Json := List (String × String)

/-- The outcome of one call of `upload_file`: the HTTP response (the
returned `{task_id}` or the raised `HTTPException`), the registry after the
call, the staging directory contents after the call (file name to bytes),
and the background work units scheduled via
`background_tasks.add_task(conversion_task, task_id, input_filename,
target_format)`. -/
structure UploadOutcome where
  response : Except HTTPException String
  tasks : Registry
  staged : List (String × List Nat)
  scheduled : List (String × String × String)

/-- MAX_SIZE = 4 * 1024 * 1024 from `upload_file`. -/
def MAX_SIZE : Nat := 4 * 1024 * 1024

/-- The submission handler `upload_file`. Inputs: the current registry and
staging directory, the uploaded bytes `content` with the original
`file.filename`, the `target_format` query value (FastAPI fills in the
default "pdf" when omitted), the fresh `file_id` drawn from
`str(uuid.uuid4())`, and a flag telling whether the `open`/`write` of the
staged file succeeds (the filesystem is outside the model). Mirrors the
source order: size check, staged-name derivation, write, registry insert,
scheduling. -/
def upload_file (tasks : Registry) (staged : List (String × List Nat))
    (content : List Nat) (filename : String) (target_format : String)
    (file_id : String) (writeOk : Bool) : UploadOutcome :=
  if content.length > MAX_SIZE then
    ⟨.error ⟨413, "File too large. Max 4MB on Vercel."⟩, tasks, staged, []⟩
  else
    let input_filename := file_id ++ "_" ++ filename
    if writeOk then
      let task_id := file_id
      let record : TaskRecord :=
        { status := "pending", input_file := input_filename, target_format := target_format }
      ⟨.ok task_id, insertAssoc tasks task_id record,
       insertAssoc staged input_filename content,
       [(task_id, input_filename, target_format)]⟩
    else
      ⟨.error ⟨500, "Internal server error during upload."⟩, tasks, staged, []⟩

/-- Serialization of a task record as the JSON object FastAPI returns for
it: the keys in dict insertion order (`status`, `input_file`,
`target_format` from `upload_file`, then `output_file` or `error` when
`conversion_task` has added them). -/
def recordToJson (r : TaskRecord) : Json :=
  [("status", r.status), ("input_file", r.input_file), ("target_format", r.target_format)]
    ++ (match r.output_file with | some f => [("output_file", f)] | none => [])
    ++ (match r.error with | some e => [("error", e)] | none => [])

/-- The synthetic payload `get_status` returns for an unknown task id. -/
def lostContextJson : Json :=
  [("status", "failed"),
   ("error", "Task context lost due to serverless restart. Please try again.")]

/-- The status handler `get_status(task_id)`: the full stored record for a
known id, the synthetic lost-context payload for an unknown one; it never
raises, so the `Except` is always `.ok`. -/
def get_status (tasks : Registry) (task_id : String) : Except HTTPException Json :=
  match lookupAssoc tasks task_id with
  | none => .ok lostContextJson
  | some r => .ok (recordToJson r)

/-- A successful download response
`FileResponse(path=DOWNLOAD_DIR / name, filename=name)`, identified by the
output file name within the download directory. -/
structure FileResponse where
  name : String
deriving DecidableEq

/-- Ways `download_file` can fail: a raised `HTTPException`, or the
`KeyError` Python raises on `tasks[task_id]["output_file"]` when the
`output_file` key is absent (reachable only in the half-updated window
between the two writes of the executor). -/
inductive DownloadError where
  | http (e : HTTPException)
  | keyError (key : String)
deriving DecidableEq

/-- The download handler `download_file(task_id)`. `disk` is the set of
file names present in the download directory (`file_path.exists()`). -/
def download_file (tasks : Registry) (disk : List String) (task_id : String) :
    Except DownloadError FileResponse :=
  match lookupAssoc tasks task_id with
  | none => .error (.http ⟨404, "File not ready or task not found"⟩)
  | some r =>
      if r.status ≠ "completed" then
        .error (.http ⟨404, "File not ready or task not found"⟩)
      else
        match r.output_file with
        | none => .error (.keyError "output_file")
        | some output_filename =>
            if output_filename ∈ disk then .ok ⟨output_filename⟩
            else .error (.http ⟨404, "File not found on disk"⟩)

/-- A status string of a terminal state. -/
def isTerminal (s : String) : Prop := s = "completed" ∨ s = "failed"

instance (s : String) : Decidable (isTerminal s) := by
  unfold isTerminal; infer_instance

/-- The record stored for a task after the first `n` statements of its
executor trace, starting from the record `r0` present at scheduling time
(used to characterise `stateAfter`; beyond the third statement the trace is
over and the record stays at its final value). -/
def recAt (r0 : TaskRecord) (conv : Except String String) : Nat → TaskRecord
  | 0 => r0
  | 1 => setStatus "processing" r0
  | 2 =>
      match conv with
      | .ok _ => setStatus "completed" (setStatus "processing" r0)
      | .error _ => setStatus "failed" (setStatus "processing" r0)
  | _ + 3 =>
      match conv with
      | .ok out => setOutput out (setStatus "completed" (setStatus "processing" r0))
      | .error e => setError e (setStatus "failed" (setStatus "processing" r0))

theorem lookupAssoc_insertAssoc_self {β : Type} :
    ∀ (l : List (String × β)) (k : String) (v : β),
      lookupAssoc (insertAssoc l k v) k = some v
  | [], k, v => by simp [insertAssoc, lookupAssoc]
  | (a, b) :: rest, k, v => by
      by_cases h : a = k
      · simp [insertAssoc, h, lookupAssoc]
      · simp [insertAssoc, h, lookupAssoc, lookupAssoc_insertAssoc_self rest k v]

theorem lookupAssoc_insertAssoc_ne {β : Type} :
    ∀ (l : List (String × β)) (k k' : String) (v : β), k' ≠ k →
      lookupAssoc (insertAssoc l k v) k' = lookupAssoc l k'
  | [], k, k', v, hne => by
      have hkk : ¬ k = k' := fun h => hne h.symm
      simp [insertAssoc, lookupAssoc, hkk]
  | (a, b) :: rest, k, k', v, hne => by
      have hkk : ¬ k = k' := fun h => hne h.symm
      by_cases h : a = k
      · subst h
        simp [insertAssoc, lookupAssoc, hkk]
      · by_cases h' : a = k'
        · subst h'
          simp [insertAssoc, lookupAssoc, h, hne]
        · simp [insertAssoc, lookupAssoc, h, h',
            lookupAssoc_insertAssoc_ne rest k k' v hne]

theorem lookupAssoc_updateTask :
    ∀ (tasks : Registry) (id : String) (f : TaskRecord → TaskRecord) (k : String),
      lookupAssoc (updateTask tasks id f) k =
        if k = id then Option.map f (lookupAssoc tasks k) else lookupAssoc tasks k
  | [], id, f, k => by
      by_cases h : k = id <;> simp [updateTask, lookupAssoc, h]
  | (a, b) :: rest, id, f, k => by
      have tail := lookupAssoc_updateTask rest id f k
      by_cases hai : a = id
      · subst hai
        by_cases hak : a = k
        · subst hak
          simp [updateTask, lookupAssoc]
        · have hka : ¬ k = a := fun h => hak h.symm
          simp [updateTask, lookupAssoc, hak, hka, tail]
      · by_cases hak : a = k
        · subst hak
          simp [updateTask, lookupAssoc, hai]
        · have hka : ¬ k = a := fun h => hak h.symm
          simp [updateTask, lookupAssoc, hai, hak, hka, tail]

/-- Characterisation of the executor trace: at every point of the trace the
record stored for the task is `recAt` of the record present at scheduling
time. -/
theorem lookupAssoc_stateAfter (tasks : Registry) (id : String) (r0 : TaskRecord)
    (h0 : lookupAssoc tasks id = some r0) :
    ∀ (conv : Except String String) (n : Nat),
      lookupAssoc (stateAfter tasks id conv n) id = some (recAt r0 conv n) := by
  intro conv n
  match conv, n with
  | .ok out, 0 => simpa [stateAfter, conversionSteps, runSteps, recAt] using h0
  | .ok out, 1 =>
      simp [stateAfter, conversionSteps, runSteps, recAt, lookupAssoc_updateTask, h0]
  | .ok out, 2 =>
      simp [stateAfter, conversionSteps, runSteps, recAt, lookupAssoc_updateTask, h0]
  | .ok out, (n + 3) =>
      simp [stateAfter, conversionSteps, runSteps, recAt, lookupAssoc_updateTask, h0,
        List.take_of_length_le]
  | .error e, 0 => simpa [stateAfter, conversionSteps, runSteps, recAt] using h0
  | .error e, 1 =>
      simp [stateAfter, conversionSteps, runSteps, recAt, lookupAssoc_updateTask, h0]
  | .error e, 2 =>
      simp [stateAfter, conversionSteps, runSteps, recAt, lookupAssoc_updateTask, h0]
  | .error e, (n + 3) =>
      simp [stateAfter, conversionSteps, runSteps, recAt, lookupAssoc_updateTask, h0,
        List.take_of_length_le]

/-- Frame property of a trace statement: a write for task `id` leaves every
other key of the registry unchanged. -/
theorem lookupAssoc_stateAfter_ne (tasks : Registry) (id : String) (k : String)
    (hne : k ≠ id) (conv : Except String String) (n : Nat) :
    lookupAssoc (stateAfter tasks id conv n) k = lookupAssoc tasks k := by
  match conv, n with
  | .ok out, 0 => simp [stateAfter, conversionSteps, runSteps]
  | .ok out, 1 => simp [stateAfter, conversionSteps, runSteps, lookupAssoc_updateTask, hne]
  | .ok out, 2 => simp [stateAfter, conversionSteps, runSteps, lookupAssoc_updateTask, hne]
  | .ok out, (n + 3) =>
      simp [stateAfter, conversionSteps, runSteps, lookupAssoc_updateTask, hne,
        List.take_of_length_le]
  | .error e, 0 => simp [stateAfter, conversionSteps, runSteps]
  | .error e, 1 => simp [stateAfter, conversionSteps, runSteps, lookupAssoc_updateTask, hne]
  | .error e, 2 => simp [stateAfter, conversionSteps, runSteps, lookupAssoc_updateTask, hne]
  | .error e, (n + 3) =>
      simp [stateAfter, conversionSteps, runSteps, lookupAssoc_updateTask, hne,
        List.take_of_length_le]

/-- A full executor run is the state after (at least) three statements. -/
theorem conversion_task_eq_stateAfter (converter : String → String → Except String String)
    (tasks : Registry) (task_id input_filename target_format : String) :
    conversion_task converter tasks task_id input_filename target_format =
      stateAfter tasks task_id (converter input_filename target_format) 3 := by
  unfold conversion_task stateAfter
  cases converter input_filename target_format <;> rfl

theorem pending_ne_completed : ("pending" : String) ≠ "completed" := by decide

theorem pending_ne_failed : ("pending" : String) ≠ "failed" := by decide

theorem completed_ne_failed : ("completed" : String) ≠ "failed" := by decide

theorem failed_ne_completed : ("failed" : String) ≠ "completed" := by decide

/-- A sample record as `upload_file` creates it. -/
def rec0 : TaskRecord :=
  { status := "pending", input_file := "t1_a.txt", target_format := "pdf" }

/-- A sample registry holding one freshly submitted task. -/
def sampleTasks : Registry := [("t1", rec0)]

/-- The record of the sample task after a failed conversion with
description "conversion failed". -/
def rec3err : TaskRecord :=
  { status := "failed", input_file := "t1_a.txt", target_format := "pdf",
    output_file := none, error := some "conversion failed" }

/-- The record of the sample task after a successful conversion to
"t1_a.pdf". -/
def rec3ok : TaskRecord :=
  { status := "completed", input_file := "t1_a.txt", target_format := "pdf",
    output_file := some "t1_a.pdf", error := none }

/-- C1: the update is NOT atomic with respect to concurrent readers. The
executor writes `status` and the terminal payload in two separate
statements, so the registry state after the second statement of the trace
(observable by a reader, since the sync background task runs on a thread
pool concurrently with the event loop) has `status = "completed"` while
`output_file` is still absent, and in the failure trace `status = "failed"`
while `error` is still absent — exactly the half-updated records the claim
rules out. -/
theorem c1_half_updated_counterexample :
    lookupAssoc (stateAfter sampleTasks "t1" (Except.ok "t1_a.pdf") 2) "t1" =
      some { status := "completed", input_file := "t1_a.txt", target_format := "pdf",
             output_file := none, error := none } ∧
    lookupAssoc (stateAfter sampleTasks "t1" (Except.error "conversion failed") 2) "t1" =
      some { status := "failed", input_file := "t1_a.txt", target_format := "pdf",
             output_file := none, error := none } := by
  constructor <;> rfl

/-- C1 (amended): at every point of the executor trace, a record whose
status is not terminal has `output_file` and `error` absent (they are only
ever written after the terminal status write), and once the trace has
finished (three statements), a completed record carries an output file and
no error while a failed record carries an error and no output file. What
fails in the original claim is only the atomicity between the terminal
status write and the payload write. -/
theorem c1_fields_absent_until_terminal
    (tasks : Registry) (id : String) (conv : Except String String) (r0 : TaskRecord)
    (n : Nat) (r : TaskRecord)
    (h0 : lookupAssoc tasks id = some r0)
    (ho : r0.output_file = none) (he : r0.error = none)
    (hr : lookupAssoc (stateAfter tasks id conv n) id = some r) :
    (¬ isTerminal r.status → r.output_file = none ∧ r.error = none) ∧
    (3 ≤ n →
      (r.status = "completed" → ∃ f, r.output_file = some f ∧ r.error = none) ∧
      (r.status = "failed" → ∃ e, r.error = some e ∧ r.output_file = none)) := by
  have hr' := lookupAssoc_stateAfter tasks id r0 h0 conv n
  rw [hr] at hr'
  have hrr : r = recAt r0 conv n := Option.some.inj hr'
  subst hrr
  cases conv with
  | ok out =>
      rcases n with _ | _ | _ | m
      · exact ⟨fun _ => ⟨ho, he⟩, fun h3 => absurd h3 (by omega)⟩
      · exact ⟨fun _ => ⟨ho, he⟩, fun h3 => absurd h3 (by omega)⟩
      · exact ⟨fun hnt => absurd (Or.inl rfl) hnt, fun h3 => absurd h3 (by omega)⟩
      · exact ⟨fun hnt => absurd (Or.inl rfl) hnt,
          fun _ => ⟨fun _ => ⟨out, rfl, he⟩, fun hc => absurd hc completed_ne_failed⟩⟩
  | error e =>
      rcases n with _ | _ | _ | m
      · exact ⟨fun _ => ⟨ho, he⟩, fun h3 => absurd h3 (by omega)⟩
      · exact ⟨fun _ => ⟨ho, he⟩, fun h3 => absurd h3 (by omega)⟩
      · exact ⟨fun hnt => absurd (Or.inr rfl) hnt, fun h3 => absurd h3 (by omega)⟩
      · exact ⟨fun hnt => absurd (Or.inr rfl) hnt,
          fun _ => ⟨fun hc => absurd hc failed_ne_completed, fun _ => ⟨e, rfl, ho⟩⟩⟩

/-- C1 amended claim instantiated on the sample task after a successful
three-statement executor trace. -/
theorem c1_fields_absent_until_terminal_witness :
    (¬ isTerminal rec3ok.status → rec3ok.output_file = none ∧ rec3ok.error = none) ∧
    (3 ≤ 3 →
      (rec3ok.status = "completed" → ∃ f, rec3ok.output_file = some f ∧ rec3ok.error = none) ∧
      (rec3ok.status = "failed" → ∃ e, rec3ok.error = some e ∧ rec3ok.output_file = none)) :=
  c1_fields_absent_until_terminal sampleTasks "t1" (Except.ok "t1_a.pdf") rec0 3 rec3ok
    rfl rfl rfl rfl

/-- C2: two consecutive reads after the terminal state is reached need NOT
yield identical records. In the failure trace, the status write
`tasks[task_id]["status"] = "failed"` reaches the terminal state, and the
separate statement `tasks[task_id]["error"] = str(e)` then changes the
record again: a poll between the two statements and a poll after them
return different records (error absent vs present). -/
theorem c2_record_changes_after_terminal_counterexample :
    lookupAssoc (stateAfter sampleTasks "t1" (Except.error "conversion failed") 2) "t1" =
      some { status := "failed", input_file := "t1_a.txt", target_format := "pdf",
             output_file := none, error := none } ∧
    lookupAssoc (stateAfter sampleTasks "t1" (Except.error "conversion failed") 3) "t1" =
      some rec3err ∧
    isTerminal "failed" ∧
    ({ status := "failed", input_file := "t1_a.txt", target_format := "pdf",
       output_file := none, error := none } : TaskRecord) ≠ rec3err := by
  exact ⟨rfl, rfl, Or.inr rfl, by decide⟩

/-- C2 (amended): the task status never transitions out of a terminal
state: once a trace point has terminal status, every later trace point has
the same status; after the executor has finished its three statements the
record is frozen, so any two polls from then on yield identical records;
and no other operation touches the record: an upload of a fresh id and the
executor statements of a different task both leave it unchanged (the status
and download handlers are read-only by construction, returning values
without a registry). The only mutation after reaching a terminal status is
the executor writing the terminal payload field in its very next
statement. -/
theorem c2_terminal_stability
    (tasks : Registry) (id : String) (conv : Except String String) (r0 : TaskRecord)
    (m n : Nat) (rm rn : TaskRecord)
    (staged : List (String × List Nat)) (content : List Nat)
    (filename tf id2 infn2 tf2 : String) (writeOk : Bool)
    (converter : String → String → Except String String)
    (h0 : lookupAssoc tasks id = some r0)
    (hs : r0.status = "pending")
    (hmn : m ≤ n)
    (hm : lookupAssoc (stateAfter tasks id conv m) id = some rm)
    (hn : lookupAssoc (stateAfter tasks id conv n) id = some rn)
    (hfresh : id2 ≠ id) :
    (isTerminal rm.status → rn.status = rm.status) ∧
    (3 ≤ m → rn = rm) ∧
    lookupAssoc (upload_file tasks staged content filename tf id2 writeOk).tasks id
      = lookupAssoc tasks id ∧
    lookupAssoc (conversion_task converter tasks id2 infn2 tf2) id
      = lookupAssoc tasks id := by
  have hupload : lookupAssoc (upload_file tasks staged content filename tf id2 writeOk).tasks id
      = lookupAssoc tasks id := by
    unfold upload_file
    by_cases hlen : content.length > MAX_SIZE
    · simp [hlen]
    · cases writeOk
      · simp [hlen]
      · simp [hlen, lookupAssoc_insertAssoc_ne tasks id2 id _ (Ne.symm hfresh)]
  have hconv : lookupAssoc (conversion_task converter tasks id2 infn2 tf2) id
      = lookupAssoc tasks id := by
    rw [conversion_task_eq_stateAfter]
    exact lookupAssoc_stateAfter_ne tasks id2 id (Ne.symm hfresh) _ 3
  have hm' := lookupAssoc_stateAfter tasks id r0 h0 conv m
  rw [hm] at hm'
  have hrm : rm = recAt r0 conv m := Option.some.inj hm'
  have hn' := lookupAssoc_stateAfter tasks id r0 h0 conv n
  rw [hn] at hn'
  have hrn : rn = recAt r0 conv n := Option.some.inj hn'
  subst hrm; subst hrn
  refine ⟨?_, ?_, hupload, hconv⟩
  · intro ht
    rcases m with _ | _ | _ | m
    · exfalso
      have : isTerminal r0.status := by
        cases conv <;> simpa [recAt] using ht
      rw [hs] at this
      exact absurd this (by decide)
    · exfalso
      have : isTerminal "processing" := by
        cases conv <;> simpa [recAt, setStatus] using ht
      exact absurd this (by decide)
    · rcases n with _ | _ | _ | n
      · exact absurd hmn (by omega)
      · exact absurd hmn (by omega)
      · rfl
      · cases conv <;> rfl
    · rcases n with _ | _ | _ | n
      · exact absurd hmn (by omega)
      · exact absurd hmn (by omega)
      · exact absurd hmn (by omega)
      · cases conv <;> rfl
  · intro h3
    rcases m with _ | _ | _ | m
    · exact absurd h3 (by omega)
    · exact absurd h3 (by omega)
    · exact absurd h3 (by omega)
    · rcases n with _ | _ | _ | n
      · exact absurd hmn (by omega)
      · exact absurd hmn (by omega)
      · exact absurd hmn (by omega)
      · cases conv <;> rfl

/-- C2 amended claim instantiated: polls after the third and the fourth
observation point of the sample failure trace agree, a fresh upload and a
second task executor leave the sample record alone. -/
theorem c2_terminal_stability_witness :
    (isTerminal rec3err.status → rec3err.status = rec3err.status) ∧
    (3 ≤ 3 → rec3err = rec3err) ∧
    lookupAssoc (upload_file sampleTasks [] [] "a.txt" "pdf" "t2" true).tasks "t1"
      = lookupAssoc sampleTasks "t1" ∧
    lookupAssoc (conversion_task (fun _ _ => Except.error "x") sampleTasks "t2" "in" "pdf") "t1"
      = lookupAssoc sampleTasks "t1" :=
  c2_terminal_stability sampleTasks "t1" (Except.error "conversion failed") rec0 3 4
    rec3err rec3err [] [] "a.txt" "pdf" "t2" "in" "pdf" true
    (fun _ _ => Except.error "x") rfl rfl (by omega) rfl rfl (by decide)

/-- A sample registry holding one failed task. -/
def sampleFailedTasks : Registry := [("t1", rec3err)]

/-- A sample registry holding one completed task. -/
def sampleDoneTasks : Registry := [("t1", rec3ok)]

/-- C3: polling an unknown task identifier returns the synthetic
`{status: "failed", error: <lost-context message>}` payload as a normal
response — `get_status` raises no `HTTPException`, so there is no
transport-level not-found error — and the response for any identifier that
is present in the registry is the stored record serialised with its
`input_file` and `target_format` fields, which the synthetic two-field
payload never carries, so the caller can tell the two apart (in particular
from a task that exists and has failed). -/
theorem c3_unknown_task_synthetic_failure
    (tasks : Registry) (task_id known_id : String) (r : TaskRecord)
    (hunknown : lookupAssoc tasks task_id = none)
    (hknown : lookupAssoc tasks known_id = some r) :
    get_status tasks task_id = .ok lostContextJson ∧
    ("status", "failed") ∈ lostContextJson ∧
    (∀ ex : HTTPException, get_status tasks task_id ≠ .error ex) ∧
    get_status tasks known_id = .ok (recordToJson r) ∧
    recordToJson r ≠ lostContextJson := by
  have hlen : 3 ≤ (recordToJson r).length := by
    unfold recordToJson
    cases r.output_file <;> cases r.error <;> simp
  refine ⟨?_, by decide, ?_, ?_, ?_⟩
  · unfold get_status
    rw [hunknown]
  · intro ex hex
    unfold get_status at hex
    rw [hunknown] at hex
    exact Except.noConfusion hex
  · unfold get_status
    rw [hknown]
  · intro h
    rw [h] at hlen
    exact absurd hlen (by decide)

/-- C3 instantiated: an unknown id "zzz" against a registry holding one
failed task "t1". -/
theorem c3_unknown_task_synthetic_failure_witness :
    get_status sampleFailedTasks "zzz" = .ok lostContextJson ∧
    ("status", "failed") ∈ lostContextJson ∧
    (∀ ex : HTTPException, get_status sampleFailedTasks "zzz" ≠ .error ex) ∧
    get_status sampleFailedTasks "t1" = .ok (recordToJson rec3err) ∧
    recordToJson rec3err ≠ lostContextJson :=
  c3_unknown_task_synthetic_failure sampleFailedTasks "zzz" "t1" rec3err rfl rfl

/-- C4 is refuted: the handler returns `tasks[task_id]` whole, so already
for a freshly submitted task the response carries the field `input_file`
(and `target_format`), which is outside the claimed shape
{status, output_file?, error?}. -/
theorem c4_extra_fields_counterexample :
    get_status sampleTasks "t1" =
      .ok [("status", "pending"), ("input_file", "t1_a.txt"), ("target_format", "pdf")] ∧
    "input_file" ∈ (recordToJson rec0).map Prod.fst ∧
    "input_file" ∉ (["status", "output_file", "error"] : List String) := by
  exact ⟨rfl, by decide, by decide⟩

/-- C4 (amended): for every identifier present in the registry the status
response is the stored record, whose fields are exactly `status`,
`input_file`, `target_format`, plus `output_file` when present (set on
completion) and `error` when present (set on failure). -/
theorem c4_status_response_shape
    (tasks : Registry) (task_id : String) (r : TaskRecord)
    (h : lookupAssoc tasks task_id = some r) :
    get_status tasks task_id = .ok (recordToJson r) ∧
    (recordToJson r).map Prod.fst =
      ["status", "input_file", "target_format"]
        ++ (match r.output_file with | some _ => ["output_file"] | none => [])
        ++ (match r.error with | some _ => ["error"] | none => []) := by
  refine ⟨?_, ?_⟩
  · unfold get_status
    rw [h]
  · unfold recordToJson
    cases r.output_file <;> cases r.error <;> simp

/-- C4 amended claim instantiated on a completed task. -/
theorem c4_status_response_shape_witness :
    get_status sampleDoneTasks "t1" = .ok (recordToJson rec3ok) ∧
    (recordToJson rec3ok).map Prod.fst =
      ["status", "input_file", "target_format"]
        ++ (match rec3ok.output_file with | some _ => ["output_file"] | none => [])
        ++ (match rec3ok.error with | some _ => ["error"] | none => []) :=
  c4_status_response_shape sampleDoneTasks "t1" rec3ok rfl

/-- C5: the configured maximum is MAX_SIZE = 4 * 1024 * 1024 bytes; a
payload of exactly MAX_SIZE passes the `len(content) > MAX_SIZE` check and
(given the staging write succeeds) creates the task, while a payload of
MAX_SIZE + 1 is rejected with HTTP 413 before any state is touched: the
registry, the staging directory and the scheduled work are exactly as
before the call. -/
theorem c5_size_limit
    (tasks : Registry) (staged : List (String × List Nat))
    (content contentOver : List Nat) (filename tf file_id : String)
    (hexact : content.length = MAX_SIZE)
    (hover : contentOver.length = MAX_SIZE + 1) :
    MAX_SIZE = 4 * 1024 * 1024 ∧
    (upload_file tasks staged content filename tf file_id true).response = .ok file_id ∧
    lookupAssoc (upload_file tasks staged content filename tf file_id true).tasks file_id
      = some { status := "pending", input_file := file_id ++ "_" ++ filename,
               target_format := tf } ∧
    (upload_file tasks staged contentOver filename tf file_id true).response
      = .error ⟨413, "File too large. Max 4MB on Vercel."⟩ ∧
    (upload_file tasks staged contentOver filename tf file_id true).tasks = tasks ∧
    (upload_file tasks staged contentOver filename tf file_id true).staged = staged ∧
    (upload_file tasks staged contentOver filename tf file_id true).scheduled = [] := by
  have h1 : ¬ content.length > MAX_SIZE := by omega
  have h2 : contentOver.length > MAX_SIZE := by omega
  refine ⟨rfl, ?_, ?_, ?_, ?_, ?_, ?_⟩ <;>
    simp [upload_file, h1, h2, lookupAssoc_insertAssoc_self]

/-- C5 instantiated with payloads of exactly 4 MiB and 4 MiB + 1 zero
bytes against an empty registry. -/
theorem c5_size_limit_witness :
    MAX_SIZE = 4 * 1024 * 1024 ∧
    (upload_file [] [] (List.replicate MAX_SIZE 0) "a.txt" "pdf" "id1" true).response
      = .ok "id1" ∧
    lookupAssoc (upload_file [] [] (List.replicate MAX_SIZE 0) "a.txt" "pdf" "id1" true).tasks "id1"
      = some { status := "pending", input_file := "id1" ++ "_" ++ "a.txt",
               target_format := "pdf" } ∧
    (upload_file [] [] (List.replicate (MAX_SIZE + 1) 0) "a.txt" "pdf" "id1" true).response
      = .error ⟨413, "File too large. Max 4MB on Vercel."⟩ ∧
    (upload_file [] [] (List.replicate (MAX_SIZE + 1) 0) "a.txt" "pdf" "id1" true).tasks = [] ∧
    (upload_file [] [] (List.replicate (MAX_SIZE + 1) 0) "a.txt" "pdf" "id1" true).staged = [] ∧
    (upload_file [] [] (List.replicate (MAX_SIZE + 1) 0) "a.txt" "pdf" "id1" true).scheduled = [] :=
  c5_size_limit [] [] (List.replicate MAX_SIZE 0) (List.replicate (MAX_SIZE + 1) 0)
    "a.txt" "pdf" "id1" (by simp) (by simp)

/-- C6 is refuted in one point: the captured description is `str(e)`, which
is the empty string for an exception constructed without a message, so the
task can end `failed` with `error` set to "" — not a non-empty description.
Everything else the claim states does hold (see the amended theorem). -/
theorem c6_empty_description_counterexample :
    lookupAssoc
      (conversion_task (fun _ _ => Except.error "") sampleTasks "t1" "t1_a.txt" "pdf") "t1"
      = some { status := "failed", input_file := "t1_a.txt", target_format := "pdf",
               output_file := none, error := some "" } := by
  rfl

/-- C6 (amended): whatever exception the converter raises, the executor
catches it and runs to completion (it is a total function into registries,
with no exception channel: the `except Exception` block turns the failure
into registry writes, so nothing is rethrown), the task ends `failed` with
`error` set to exactly the captured description `str(e)` — which is empty
when the exception carries no message — and the record of every other task
is untouched. -/
theorem c6_converter_failure_isolated
    (tasks : Registry) (id infn tf : String) (r0 : TaskRecord) (e : String) (k : String)
    (converter : String → String → Except String String)
    (h0 : lookupAssoc tasks id = some r0)
    (hconv : converter infn tf = Except.error e)
    (hk : k ≠ id) :
    lookupAssoc (conversion_task converter tasks id infn tf) id
      = some { r0 with status := "failed", error := some e } ∧
    lookupAssoc (conversion_task converter tasks id infn tf) k
      = lookupAssoc tasks k := by
  constructor
  · rw [conversion_task_eq_stateAfter, hconv]
    exact lookupAssoc_stateAfter tasks id r0 h0 (Except.error e) 3
  · rw [conversion_task_eq_stateAfter, hconv]
    exact lookupAssoc_stateAfter_ne tasks id k hk (Except.error e) 3

/-- C6 amended claim instantiated on a registry with two pending tasks, the
converter failing on the first with description "Unsupported format". -/
theorem c6_converter_failure_isolated_witness :
    lookupAssoc
      (conversion_task (fun _ _ => Except.error "Unsupported format")
        [("t1", rec0), ("t2", rec0)] "t1" "t1_a.txt" "pdf") "t1"
      = some { rec0 with status := "failed", error := some "Unsupported format" } ∧
    lookupAssoc
      (conversion_task (fun _ _ => Except.error "Unsupported format")
        [("t1", rec0), ("t2", rec0)] "t1" "t1_a.txt" "pdf") "t2"
      = lookupAssoc [("t1", rec0), ("t2", rec0)] "t2" :=
  c6_converter_failure_isolated [("t1", rec0), ("t2", rec0)] "t1" "t1_a.txt" "pdf" rec0
    "Unsupported format" "t2" (fun _ _ => Except.error "Unsupported format")
    rfl rfl (by decide)

/-- C7: a valid submission (payload within the limit, staging write
succeeding) returns the task identifier, the registered record has status
"pending" — hence pending-or-processing and not terminal — and the
conversion is only scheduled as a background work unit, not performed: the
handler takes no converter at all and the record it leaves behind is
independent of any conversion outcome. -/
theorem c7_submission_never_terminal
    (tasks : Registry) (staged : List (String × List Nat))
    (content : List Nat) (filename tf file_id : String) (r : TaskRecord)
    (hlen : content.length ≤ MAX_SIZE)
    (hr : lookupAssoc (upload_file tasks staged content filename tf file_id true).tasks file_id
      = some r) :
    (upload_file tasks staged content filename tf file_id true).response = .ok file_id ∧
    r.status = "pending" ∧
    (r.status = "pending" ∨ r.status = "processing") ∧
    ¬ isTerminal r.status ∧
    (upload_file tasks staged content filename tf file_id true).scheduled
      = [(file_id, file_id ++ "_" ++ filename, tf)] := by
  have h1 : ¬ content.length > MAX_SIZE := by omega
  have hr' : lookupAssoc (upload_file tasks staged content filename tf file_id true).tasks file_id
      = some { status := "pending", input_file := file_id ++ "_" ++ filename,
               target_format := tf } := by
    simp [upload_file, h1, lookupAssoc_insertAssoc_self]
  rw [hr] at hr'
  have hrr : r = { status := "pending", input_file := file_id ++ "_" ++ filename,
                   target_format := tf } := Option.some.inj hr'
  subst hrr
  refine ⟨?_, rfl, Or.inl rfl, ?_, ?_⟩
  · simp [upload_file, h1]
  · intro ht
    rcases ht with h | h
    · exact absurd h pending_ne_completed
    · exact absurd h pending_ne_failed
  · simp [upload_file, h1]

/-- C7 instantiated on a 3-byte submission against an empty registry. -/
theorem c7_submission_never_terminal_witness :
    (upload_file [] [] [1, 2, 3] "a.txt" "pdf" "id1" true).response = .ok "id1" ∧
    ({ status := "pending", input_file := "id1" ++ "_" ++ "a.txt",
       target_format := "pdf" } : TaskRecord).status = "pending" ∧
    (({ status := "pending", input_file := "id1" ++ "_" ++ "a.txt",
        target_format := "pdf" } : TaskRecord).status = "pending" ∨
     ({ status := "pending", input_file := "id1" ++ "_" ++ "a.txt",
        target_format := "pdf" } : TaskRecord).status = "processing") ∧
    ¬ isTerminal ({ status := "pending", input_file := "id1" ++ "_" ++ "a.txt",
                    target_format := "pdf" } : TaskRecord).status ∧
    (upload_file [] [] [1, 2, 3] "a.txt" "pdf" "id1" true).scheduled
      = [("id1", "id1" ++ "_" ++ "a.txt", "pdf")] :=
  c7_submission_never_terminal [] [] [1, 2, 3] "a.txt" "pdf" "id1"
    { status := "pending", input_file := "id1" ++ "_" ++ "a.txt", target_format := "pdf" }
    (by simp [MAX_SIZE]) rfl

/-- Appending the same suffix to distinct strings yields distinct
strings. -/
theorem append_left_ne (a b s : String) (h : a ≠ b) : a ++ s ≠ b ++ s := by
  intro heq
  apply h
  have hd := congrArg String.data heq
  simp only [String.data_append] at hd
  exact String.ext (List.append_cancel_right hd)

/-- C8: two submissions with the same original filename but distinct fresh
identifiers (uuid4 never repeats, modelled as the hypothesis `id1 ≠ id2`)
both succeed, derive distinct staged filenames `{task_id}_{filename}`, and
the second write does not overwrite the first: after both calls the staging
directory holds both files with their own contents. -/
theorem c8_same_filename_no_overwrite
    (tasks : Registry) (staged : List (String × List Nat))
    (b1 b2 : List Nat) (name tf1 tf2 id1 id2 : String)
    (hids : id1 ≠ id2)
    (hlen1 : b1.length ≤ MAX_SIZE) (hlen2 : b2.length ≤ MAX_SIZE) :
    (upload_file tasks staged b1 name tf1 id1 true).response = .ok id1 ∧
    (upload_file (upload_file tasks staged b1 name tf1 id1 true).tasks
      (upload_file tasks staged b1 name tf1 id1 true).staged
      b2 name tf2 id2 true).response = .ok id2 ∧
    id1 ++ "_" ++ name ≠ id2 ++ "_" ++ name ∧
    lookupAssoc (upload_file (upload_file tasks staged b1 name tf1 id1 true).tasks
      (upload_file tasks staged b1 name tf1 id1 true).staged
      b2 name tf2 id2 true).staged (id1 ++ "_" ++ name) = some b1 ∧
    lookupAssoc (upload_file (upload_file tasks staged b1 name tf1 id1 true).tasks
      (upload_file tasks staged b1 name tf1 id1 true).staged
      b2 name tf2 id2 true).staged (id2 ++ "_" ++ name) = some b2 := by
  have h1 : ¬ b1.length > MAX_SIZE := by omega
  have h2 : ¬ b2.length > MAX_SIZE := by omega
  have hnames : id1 ++ "_" ++ name ≠ id2 ++ "_" ++ name :=
    append_left_ne (id1 ++ "_") (id2 ++ "_") name (append_left_ne id1 id2 "_" hids)
  refine ⟨?_, ?_, hnames, ?_, ?_⟩
  · simp [upload_file, h1]
  · simp [upload_file, h1, h2]
  · simp [upload_file, h1, h2,
      lookupAssoc_insertAssoc_ne _ (id2 ++ "_" ++ name) (id1 ++ "_" ++ name) _ hnames,
      lookupAssoc_insertAssoc_self]
  · simp [upload_file, h1, h2, lookupAssoc_insertAssoc_self]

/-- C8 instantiated: two submissions of "report.txt" under ids "t1" and
"t2". -/
theorem c8_same_filename_no_overwrite_witness :
    (upload_file [] [] [1] "report.txt" "pdf" "t1" true).response = .ok "t1" ∧
    (upload_file (upload_file [] [] [1] "report.txt" "pdf" "t1" true).tasks
      (upload_file [] [] [1] "report.txt" "pdf" "t1" true).staged
      [2] "report.txt" "pdf" "t2" true).response = .ok "t2" ∧
    "t1" ++ "_" ++ "report.txt" ≠ "t2" ++ "_" ++ "report.txt" ∧
    lookupAssoc (upload_file (upload_file [] [] [1] "report.txt" "pdf" "t1" true).tasks
      (upload_file [] [] [1] "report.txt" "pdf" "t1" true).staged
      [2] "report.txt" "pdf" "t2" true).staged ("t1" ++ "_" ++ "report.txt") = some [1] ∧
    lookupAssoc (upload_file (upload_file [] [] [1] "report.txt" "pdf" "t1" true).tasks
      (upload_file [] [] [1] "report.txt" "pdf" "t1" true).staged
      [2] "report.txt" "pdf" "t2" true).staged ("t2" ++ "_" ++ "report.txt") = some [2] :=
  c8_same_filename_no_overwrite [] [] [1] [2] "report.txt" "pdf" "pdf" "t1" "t2"
    (by decide) (by simp [MAX_SIZE]) (by simp [MAX_SIZE])

theorem download_file_of_none (tasks : Registry) (disk : List String) (task_id : String)
    (h : lookupAssoc tasks task_id = none) :
    download_file tasks disk task_id
      = .error (.http ⟨404, "File not ready or task not found"⟩) := by
  unfold download_file
  rw [h]

theorem download_file_of_some (tasks : Registry) (disk : List String) (task_id : String)
    (r : TaskRecord) (h : lookupAssoc tasks task_id = some r) :
    download_file tasks disk task_id =
      (if r.status ≠ "completed" then
        .error (.http ⟨404, "File not ready or task not found"⟩)
      else
        match r.output_file with
        | none => .error (.keyError "output_file")
        | some output_filename =>
            if output_filename ∈ disk then .ok ⟨output_filename⟩
            else .error (.http ⟨404, "File not found on disk"⟩)) := by
  unfold download_file
  rw [h]

theorem download_file_of_not_completed (tasks : Registry) (disk : List String)
    (task_id : String) (r : TaskRecord)
    (h : lookupAssoc tasks task_id = some r) (hst : r.status ≠ "completed") :
    download_file tasks disk task_id
      = .error (.http ⟨404, "File not ready or task not found"⟩) := by
  have hmain := download_file_of_some tasks disk task_id r h
  rw [if_pos hst] at hmain
  exact hmain

theorem download_file_of_no_output (tasks : Registry) (disk : List String)
    (task_id : String) (r : TaskRecord)
    (h : lookupAssoc tasks task_id = some r) (hst : r.status = "completed")
    (ho : r.output_file = none) :
    download_file tasks disk task_id = .error (.keyError "output_file") := by
  have hmain := download_file_of_some tasks disk task_id r h
  rw [if_neg (fun hh : r.status ≠ "completed" => hh hst), ho] at hmain
  exact hmain

theorem download_file_of_output (tasks : Registry) (disk : List String)
    (task_id : String) (r : TaskRecord) (f : String)
    (h : lookupAssoc tasks task_id = some r) (hst : r.status = "completed")
    (ho : r.output_file = some f) :
    download_file tasks disk task_id =
      (if f ∈ disk then .ok ⟨f⟩
       else .error (.http ⟨404, "File not found on disk"⟩)) := by
  have hmain := download_file_of_some tasks disk task_id r h
  rw [if_neg (fun hh : r.status ≠ "completed" => hh hst), ho] at hmain
  exact hmain

/-- C9: the download handler returns a file exactly when the task exists,
its status is "completed" and the referenced output file is on disk; the
three listed failure causes each raise a 404 `HTTPException` (an unknown
task and a non-completed task share one message, a missing file on disk
gets the other). -/
theorem c9_download_success_iff
    (tasks : Registry) (disk : List String) (task_id : String) :
    ((∃ resp, download_file tasks disk task_id = Except.ok resp) ↔
      (∃ r f, lookupAssoc tasks task_id = some r ∧ r.status = "completed" ∧
        r.output_file = some f ∧ f ∈ disk)) ∧
    (lookupAssoc tasks task_id = none →
      download_file tasks disk task_id
        = .error (.http ⟨404, "File not ready or task not found"⟩)) ∧
    (∀ r, lookupAssoc tasks task_id = some r → r.status ≠ "completed" →
      download_file tasks disk task_id
        = .error (.http ⟨404, "File not ready or task not found"⟩)) ∧
    (∀ r f, lookupAssoc tasks task_id = some r → r.status = "completed" →
      r.output_file = some f → f ∉ disk →
      download_file tasks disk task_id
        = .error (.http ⟨404, "File not found on disk"⟩)) ∧
    (∀ r f, lookupAssoc tasks task_id = some r → r.status = "completed" →
      r.output_file = some f → f ∈ disk →
      download_file tasks disk task_id = .ok ⟨f⟩) := by
  cases h : lookupAssoc tasks task_id with
  | none =>
      refine ⟨?_, fun _ => download_file_of_none tasks disk task_id h, ?_, ?_, ?_⟩
      · rw [download_file_of_none tasks disk task_id h]
        constructor
        · rintro ⟨resp, hresp⟩
          exact Except.noConfusion hresp
        · rintro ⟨r, f, hr, -⟩
          exact Option.noConfusion hr
      · intro r hr
        exact Option.noConfusion hr
      · intro r f hr
        exact Option.noConfusion hr
      · intro r f hr
        exact Option.noConfusion hr
  | some r =>
      by_cases hst : r.status = "completed"
      · cases ho : r.output_file with
        | none =>
            have hdl := download_file_of_no_output tasks disk task_id r h hst ho
            refine ⟨?_, ?_, ?_, ?_, ?_⟩
            · rw [hdl]
              constructor
              · rintro ⟨resp, hresp⟩
                exact Except.noConfusion hresp
              · rintro ⟨r', f, hr', -, hf, -⟩
                obtain rfl : r = r' := Option.some.inj hr'
                exact Option.noConfusion (ho ▸ hf)
            · intro hnone
              exact Option.noConfusion hnone
            · intro r' hr' hne
              obtain rfl : r = r' := Option.some.inj hr'
              exact absurd hst hne
            · intro r' f hr' _ hf _
              obtain rfl : r = r' := Option.some.inj hr'
              exact Option.noConfusion (ho ▸ hf)
            · intro r' f hr' _ hf _
              obtain rfl : r = r' := Option.some.inj hr'
              exact Option.noConfusion (ho ▸ hf)
        | some f =>
            have hdl := download_file_of_output tasks disk task_id r f h hst ho
            by_cases hd : f ∈ disk
            · rw [if_pos hd] at hdl
              refine ⟨?_, ?_, ?_, ?_, ?_⟩
              · rw [hdl]
                exact ⟨fun _ => ⟨r, f, rfl, hst, ho, hd⟩, fun _ => ⟨⟨f⟩, rfl⟩⟩
              · intro hnone
                exact Option.noConfusion hnone
              · intro r' hr' hne
                obtain rfl : r = r' := Option.some.inj hr'
                exact absurd hst hne
              · intro r' f' hr' _ hf' hd'
                obtain rfl : r = r' := Option.some.inj hr'
                obtain rfl : f = f' := Option.some.inj (ho ▸ hf')
                exact absurd hd hd'
              · intro r' f' hr' _ hf' _
                obtain rfl : r = r' := Option.some.inj hr'
                obtain rfl : f = f' := Option.some.inj (ho ▸ hf')
                exact hdl
            · rw [if_neg hd] at hdl
              refine ⟨?_, ?_, ?_, ?_, ?_⟩
              · rw [hdl]
                constructor
                · rintro ⟨resp, hresp⟩
                  exact Except.noConfusion hresp
                · rintro ⟨r', f', hr', -, hf', hd'⟩
                  obtain rfl : r = r' := Option.some.inj hr'
                  obtain rfl : f = f' := Option.some.inj (ho ▸ hf')
                  exact absurd hd' hd
              · intro hnone
                exact Option.noConfusion hnone
              · intro r' hr' hne
                obtain rfl : r = r' := Option.some.inj hr'
                exact absurd hst hne
              · intro r' f' hr' _ hf' _
                obtain rfl : r = r' := Option.some.inj hr'
                obtain rfl : f = f' := Option.some.inj (ho ▸ hf')
                exact hdl
              · intro r' f' hr' _ hf' hd'
                obtain rfl : r = r' := Option.some.inj hr'
                obtain rfl : f = f' := Option.some.inj (ho ▸ hf')
                exact absurd hd' hd
      · have hdl := download_file_of_not_completed tasks disk task_id r h hst
        refine ⟨?_, ?_, ?_, ?_, ?_⟩
        · rw [hdl]
          constructor
          · rintro ⟨resp, hresp⟩
            exact Except.noConfusion hresp
          · rintro ⟨r', f, hr', hst', -⟩
            obtain rfl : r = r' := Option.some.inj hr'
            exact absurd hst' hst
        · intro hnone
          exact Option.noConfusion hnone
        · intro r' hr' _
          exact hdl
        · intro r' f hr' hst' _ _
          obtain rfl : r = r' := Option.some.inj hr'
          exact absurd hst' hst
        · intro r' f hr' hst' _ _
          obtain rfl : r = r' := Option.some.inj hr'
          exact absurd hst' hst

/-- C9 instantiated: the four outcomes on concrete registries — a
completed task with its file on disk downloads, an unknown id, a pending
task, and a completed task whose file vanished from disk each give 404. -/
theorem c9_download_success_iff_witness :
    download_file sampleDoneTasks ["t1_a.pdf"] "t1" = .ok ⟨"t1_a.pdf"⟩ ∧
    download_file sampleDoneTasks ["t1_a.pdf"] "zzz"
      = .error (.http ⟨404, "File not ready or task not found"⟩) ∧
    download_file sampleTasks ["t1_a.pdf"] "t1"
      = .error (.http ⟨404, "File not ready or task not found"⟩) ∧
    download_file sampleDoneTasks [] "t1"
      = .error (.http ⟨404, "File not found on disk"⟩) :=
  ⟨(c9_download_success_iff sampleDoneTasks ["t1_a.pdf"] "t1").2.2.2.2 rec3ok "t1_a.pdf"
      rfl rfl rfl (by decide),
   (c9_download_success_iff sampleDoneTasks ["t1_a.pdf"] "zzz").2.1 rfl,
   (c9_download_success_iff sampleTasks ["t1_a.pdf"] "t1").2.2.1 rec0 rfl
      pending_ne_completed,
   (c9_download_success_iff sampleDoneTasks [] "t1").2.2.2.1 rec3ok "t1_a.pdf"
      rfl rfl rfl (by decide)⟩

/-- C10 (implicit): the submission handler checks nothing but the size —
any payload of length at most MAX_SIZE (the zero-byte payload included) with
any target format string whatsoever is accepted, answered with the fresh
task identifier and registered as a pending task whose `target_format`
field stores the string uninspected; only when the background executor
later hands the format to the converter and the converter rejects it does
the failure surface, as a `failed` record returned by the status
handler. -/
theorem c10_no_validation_beyond_size
    (tasks : Registry) (staged : List (String × List Nat))
    (content : List Nat) (filename target_format file_id e : String)
    (converter : String → String → Except String String)
    (hlen : content.length ≤ MAX_SIZE)
    (hconv : converter (file_id ++ "_" ++ filename) target_format = Except.error e) :
    (upload_file tasks staged content filename target_format file_id true).response
      = .ok file_id ∧
    lookupAssoc
      (upload_file tasks staged content filename target_format file_id true).tasks file_id
      = some { status := "pending", input_file := file_id ++ "_" ++ filename,
               target_format := target_format } ∧
    get_status
      (conversion_task converter
        (upload_file tasks staged content filename target_format file_id true).tasks
        file_id (file_id ++ "_" ++ filename) target_format) file_id
      = .ok [("status", "failed"), ("input_file", file_id ++ "_" ++ filename),
             ("target_format", target_format), ("error", e)] := by
  have h1 : ¬ content.length > MAX_SIZE := by omega
  have h2 : lookupAssoc
      (upload_file tasks staged content filename target_format file_id true).tasks file_id
      = some { status := "pending", input_file := file_id ++ "_" ++ filename,
               target_format := target_format } := by
    simp [upload_file, h1, lookupAssoc_insertAssoc_self]
  refine ⟨by simp [upload_file, h1], h2, ?_⟩
  have h3 : lookupAssoc
      (conversion_task converter
        (upload_file tasks staged content filename target_format file_id true).tasks
        file_id (file_id ++ "_" ++ filename) target_format) file_id
      = some { status := "failed", input_file := file_id ++ "_" ++ filename,
               target_format := target_format, output_file := none, error := some e } := by
    rw [conversion_task_eq_stateAfter, hconv]
    exact lookupAssoc_stateAfter _ file_id _ h2 (Except.error e) 3
  unfold get_status
  rw [h3]
  rfl

/-- C10 instantiated: the zero-byte payload with the target format
"definitely-not-a-format" is accepted and registered pending; the converter
then rejects it and polling reports the failure. -/
theorem c10_no_validation_beyond_size_witness :
    (upload_file [] [] [] "a.txt" "definitely-not-a-format" "id1" true).response
      = .ok "id1" ∧
    lookupAssoc
      (upload_file [] [] [] "a.txt" "definitely-not-a-format" "id1" true).tasks "id1"
      = some { status := "pending", input_file := "id1" ++ "_" ++ "a.txt",
               target_format := "definitely-not-a-format" } ∧
    get_status
      (conversion_task (fun _ _ => Except.error "Unsupported target format")
        (upload_file [] [] [] "a.txt" "definitely-not-a-format" "id1" true).tasks
        "id1" ("id1" ++ "_" ++ "a.txt") "definitely-not-a-format") "id1"
      = .ok [("status", "failed"), ("input_file", "id1" ++ "_" ++ "a.txt"),
             ("target_format", "definitely-not-a-format"),
             ("error", "Unsupported target format")] :=
  c10_no_validation_beyond_size [] [] [] "a.txt" "definitely-not-a-format" "id1"
    "Unsupported target format" (fun _ _ => Except.error "Unsupported target format")
    (by simp) rfl

end EazyConv
